import Mathlib

/-!
Verification of the synchronization engine of the franny browser.

The embedded code is `perform_sync` and its helpers in
`src/ui/main_window.py` (passphrase resolution, encrypted-store
test/push/pull/sync, the inline bookmark and history merges, the atomic
and plain file writes) together with `SyncWorker.run` in
`src/sync/worker.py`.  Pure fragments become Lean functions; the
stateful engine becomes an explicit state-passing function over an
application state, a fault-injection environment standing for the
exceptions the Python `try/except` blocks can catch, and a trace of
file-system and store events.
-/

namespace Franny

/-- Python truthiness of an optional string: `None` and `""` are falsy,
any other string is truthy. -/
def truthy : Option String → Bool
  | none => false
  | some t => t != ""

/-! ## Merge algorithms (inline in `perform_sync`, lines 946-966) -/

/-- First-seen deduplication with an explicit seen set.  This mirrors both
`dict.fromkeys` (line 947: insertion order, first occurrence kept) and the
history loop `for item in reversed(...): if item not in seen:
merged_history.append(item); seen.add(item)` (lines 960-964): the output
lists the kept elements in scan order. -/
def dedupFirstAux (seen : List String) : List String → List String
  | [] => []
  | x :: xs =>
      if x ∈ seen then dedupFirstAux seen xs
      else x :: dedupFirstAux (x :: seen) xs

/-- Line 947: `merged_bookmarks = list(dict.fromkeys((local_bookmarks or [])
+ (rb_data or [])))` — concatenate, keep first occurrences. -/
def merge_bookmarks (localBk remoteBk : List String) : List String :=
  dedupFirstAux [] (localBk ++ remoteBk)

/-- Python `l[-n:]`: the last `min n l.length` elements of `l`. -/
def lastN (n : Nat) (l : List String) : List String :=
  l.drop (l.length - n)

/-- Lines 959-965: scan `local_history + rh_data` in reverse keeping the
first-seen occurrence of each URL, reverse back
(`list(reversed(merged_history))`), and truncate with `[-1000:]`. -/
def merge_history (localHi remoteHi : List String) : List String :=
  lastN 1000 (dedupFirstAux [] ((localHi ++ remoteHi).reverse)).reverse

/-- Spec-side formulation of "deduplicate keeping the first occurrence":
keep the head and erase its occurrences from the deduplicated tail. -/
def dedupKeepFirst : List String → List String
  | [] => []
  | x :: xs => x :: (dedupKeepFirst xs).filter (fun y => y ≠ x)

/-- Spec-side bookmark merge: "concatenate local then remote, then
deduplicate keeping the first occurrence (stable union, local-biased)". -/
def merge_bookmarks_spec (l r : List String) : List String :=
  dedupKeepFirst (l ++ r)

/-- Spec-side history merge: in forward order the last occurrence in the
concatenation wins (`List.dedup` keeps exactly the last occurrence of each
element, in order), then truncate to the most recent 1000 entries. -/
def merge_history_spec (l r : List String) : List String :=
  lastN 1000 ((l ++ r).dedup)

/-! ## The sync engine state machine

`perform_sync` (src/ui/main_window.py lines 881-986) is embedded as an
explicit state-passing function.  Exceptions that the Python `try/except`
blocks can catch are injected through an environment of optional fault
messages, one per fallible operation, in source order; catching an
injected fault yields exactly the failure result the corresponding
`except` clause builds.  All file-system and encrypted-store activity is
additionally recorded in an event trace. -/

/-- Modelled from the spec: `franny.storage.paths` is not part of the
source tree; the spec (§6) only requires three distinct local files for
bookmarks, history and the sync config. -/
def BOOKMARKS_PATH : String := "bookmarks.json"

/-- Modelled from the spec: the local history file path. -/
def HISTORY_PATH : String := "history.json"

/-- Modelled from the spec: the sync config file path. -/
def SYNC_CONFIG_PATH : String := "sync_config.json"

/-- `os.path.join(os.path.expanduser("~"), ".franny_sync_store")`. -/
def SYNC_STORE_PATH : String := "~/.franny_sync_store"

/-- A document stored in the encrypted store: `{"ts": ...}` has
`data = none`, `{"ts": ..., "data": [...]}` has `data = some ...`. -/
structure Doc where
  ts : String
  data : Option (List String)
deriving DecidableEq

/-- Payload of a local file write. -/
inductive FileData where
  | urls (l : List String)
  | config (enabled : Bool) (lastSync : Option String)
deriving DecidableEq

/-- Observable file-system / encrypted-store events.  `atomicWrite` is a
temp-file + flush + rename persistence; `plainWrite` is a direct
truncating `open(path, "w")` write. -/
inductive FsEvent where
  | atomicWrite (path : String) (d : FileData)
  | plainWrite (path : String) (d : FileData)
  | storeOpen (path : String)
  | storeSet (key : String) (d : Doc)
  | storeGet (key : String)
deriving DecidableEq

/-- The encrypted key-value store contents (newest binding first).
Modelled from the spec: the `crypto.sync.SyncStore` engine is external
to the source tree; §4.2 specifies it as authenticated key-value
persistence with `get`/`set` semantics, so it is embedded as an honest
association list. -/
abbrev Store := List (String × Doc)

/-- `store.set(key, doc)` per the spec's EncryptedStore contract:
newest binding shadows older ones. -/
def storePut (st : Store) (k : String) (d : Doc) : Store := (k, d) :: st

/-- `store.get(key)` per the spec's EncryptedStore contract: the newest
binding for the key, if any. -/
def storeFetch (st : Store) (k : String) : Option Doc := st.lookup k

/-- The mutable application state `perform_sync` reads and writes.
`bookmarksFile` / `historyFile` are the parsed contents of the local
files (`load_bookmarks` returns `[]` for a missing or corrupt file, which
is folded into the value); `history` is the in-memory `self.history`;
`uiPass` is the `sync_pass_input` widget (`none` when absent);
`storedPass` is the credential-backend secret. -/
structure AppState where
  bookmarksFile : List String
  history : List String
  historyFile : List String
  syncEnabled : Bool
  lastSync : Option String
  syncConfigFile : Option (Bool × Option String)
  uiPass : Option String
  storedPass : Option String
  store : Store
deriving DecidableEq

/-- Fault-injection environment: `some e` means the corresponding Python
operation raises an exception whose string form is `e`; `now` is the
value of `datetime.datetime.utcnow().isoformat() + "Z"` observed by the
call. -/
structure Env where
  hasKeyring : Bool
  now : String
  importFault : Option String
  openFault : Option String
  loadLocalFault : Option String
  setTestFault : Option String
  getTestFault : Option String
  setBkFault : Option String
  setHiFault : Option String
  getBkFault : Option String
  getHiFault : Option String
  atomicBkFault : Option String
  saveBkFault : Option String
  writeHiFault : Option String
  saveSettingsFault : Bool
deriving DecidableEq

/-- An environment with no injected faults. -/
def Env.clean (hasKeyring : Bool) (now : String) : Env :=
  ⟨hasKeyring, now, none, none, none, none, none, none, none, none, none,
    none, none, none, false⟩

/-- `save_sync_settings` (lines 821-832): atomically writes
`{sync_enabled, last_sync}`; any exception is swallowed (`except
Exception: pass`), so it never raises and on fault leaves the file
unchanged. -/
def save_sync_settings (env : Env) (s : AppState) : AppState × List FsEvent :=
  if env.saveSettingsFault then (s, [])
  else ({ s with syncConfigFile := some (s.syncEnabled, s.lastSync) },
    [FsEvent.atomicWrite SYNC_CONFIG_PATH (FileData.config s.syncEnabled s.lastSync)])

/-- `_atomic_write_json` (lines 872-879): temp file + flush + rename. -/
def atomic_write_json (path : String) (data : List String) : FsEvent :=
  FsEvent.atomicWrite path (FileData.urls data)

/-- `save_bookmarks` (lines 516-519): a direct truncating
`open(BOOKMARKS_PATH, "w")` write, not temp-file + rename. -/
def save_bookmarks_event (data : List String) : FsEvent :=
  FsEvent.plainWrite BOOKMARKS_PATH (FileData.urls data)

/-- Lines 977-984: set `last_sync`, best-effort `save_sync_settings`,
return `(True, "Sync completed.")`. -/
def finalizeSync (env : Env) (s : AppState) (ev : List FsEvent) :
    (Bool × String) × AppState × List FsEvent :=
  let s1 := { s with lastSync := some env.now }
  let r := save_sync_settings env s1
  ((true, "Sync completed."), r.1, ev ++ r.2)

/-- Lines 937-975: the `direction in ("pull", "sync")` block, followed by
the success epilogue.  `localBk` and `localHi` are the snapshots taken at
lines 908-909, before any push. -/
def pullPhase (env : Env) (s : AppState) (localBk localHi : List String)
    (direction : String) (ev : List FsEvent) :
    (Bool × String) × AppState × List FsEvent :=
  if direction = "pull" ∨ direction = "sync" then
    match env.getBkFault with
    | some e => ((false, "Failed to pull data: " ++ e), s, ev)
    | none =>
      let remoteBk := storeFetch s.store "bookmarks"
      let ev1 := ev ++ [FsEvent.storeGet "bookmarks"]
      match env.getHiFault with
      | some e => ((false, "Failed to pull data: " ++ e), s, ev1)
      | none =>
        let remoteHi := storeFetch s.store "history"
        let ev2 := ev1 ++ [FsEvent.storeGet "history"]
        let rbData := match remoteBk with
          | some d => d.data.getD []
          | none => []
        let mergedBk := merge_bookmarks localBk rbData
        match env.atomicBkFault with
        | some e => ((false, "Failed to write merged bookmarks: " ++ e), s, ev2)
        | none =>
          let s1 := { s with bookmarksFile := mergedBk }
          let ev3 := ev2 ++ [atomic_write_json BOOKMARKS_PATH mergedBk]
          match env.saveBkFault with
          | some e => ((false, "Failed to write merged bookmarks: " ++ e), s1, ev3)
          | none =>
            let ev4 := ev3 ++ [save_bookmarks_event mergedBk]
            let rhData := match remoteHi with
              | some d => d.data.getD []
              | none => []
            let mergedHi := merge_history localHi rhData
            match env.writeHiFault with
            | some e => ((false, "Failed to write merged history: " ++ e), s1, ev4)
            | none =>
              let s2 := { s1 with historyFile := mergedHi, history := mergedHi }
              let ev5 := ev4 ++ [FsEvent.atomicWrite HISTORY_PATH (FileData.urls mergedHi)]
              finalizeSync env s2 ev5
  else finalizeSync env s ev

/-- Lines 889-893: passphrase resolution order — a truthy explicit
argument, else the keyring value when the keyring module imported, else
the `sync_pass_input` text when that widget exists. -/
def resolvePass (env : Env) (s : AppState) (passphrase : Option String) :
    Option String :=
  let p1 : Option String :=
    if truthy passphrase then passphrase
    else if env.hasKeyring then s.storedPass else none
  if truthy p1 then p1
  else match s.uiPass with
    | some t => some t
    | none => p1

/-- `perform_sync` (lines 881-986), faithfully mirroring the source
control flow: passphrase resolution, `SyncStore` import and open, local
snapshot load, then the `test`, `push` and `pull` blocks with their
`try/except` boundaries and the outer catch-all. -/
def perform_sync (env : Env) (s : AppState) (passphrase : Option String)
    (direction : String) : (Bool × String) × AppState × List FsEvent :=
  if truthy (resolvePass env s passphrase) = false then
    ((false, "No sync passphrase provided."), s, [])
  else
    match env.importFault with
    | some e => ((false, "Sync backend unavailable: " ++ e), s, [])
    | none =>
      match env.openFault with
      | some e => ((false, "Failed to open SyncStore: " ++ e), s,
          [FsEvent.storeOpen SYNC_STORE_PATH])
      | none =>
        match env.loadLocalFault with
        | some e => ((false, "Unexpected sync error: " ++ e), s,
            [FsEvent.storeOpen SYNC_STORE_PATH])
        | none =>
          let localBk := s.bookmarksFile
          let localHi := s.history
          let ev0 : List FsEvent := [FsEvent.storeOpen SYNC_STORE_PATH]
          if direction = "test" then
            match env.setTestFault with
            | some e => ((false, "Sync test failed: " ++ e), s, ev0)
            | none =>
              let st1 := storePut s.store "franny_sync_test" ⟨env.now, none⟩
              let ev1 := ev0 ++ [FsEvent.storeSet "franny_sync_test" ⟨env.now, none⟩]
              match env.getTestFault with
              | some e => ((false, "Sync test failed: " ++ e),
                  { s with store := st1 }, ev1)
              | none =>
                let ev2 := ev1 ++ [FsEvent.storeGet "franny_sync_test"]
                match storeFetch st1 "franny_sync_test" with
                | some d =>
                  if d.ts ≠ "" then
                    let s1 := { s with store := st1, lastSync := some env.now }
                    let r := save_sync_settings env s1
                    ((true, "Sync test OK (local encrypted store)."), r.1, ev2 ++ r.2)
                  else ((false, "Sync test failed: read-back mismatch."),
                    { s with store := st1 }, ev2)
                | none => ((false, "Sync test failed: read-back mismatch."),
                    { s with store := st1 }, ev2)
          else
            if direction = "push" ∨ direction = "sync" then
              match env.setBkFault with
              | some e => ((false, "Failed to push data: " ++ e), s, ev0)
              | none =>
                let st1 := storePut s.store "bookmarks" ⟨env.now, some localBk⟩
                let ev1 := ev0 ++ [FsEvent.storeSet "bookmarks" ⟨env.now, some localBk⟩]
                match env.setHiFault with
                | some e => ((false, "Failed to push data: " ++ e),
                    { s with store := st1 }, ev1)
                | none =>
                  let st2 := storePut st1 "history" ⟨env.now, some (lastN 500 localHi)⟩
                  let ev2 := ev1 ++ [FsEvent.storeSet "history" ⟨env.now, some (lastN 500 localHi)⟩]
                  pullPhase env { s with store := st2 } localBk localHi direction ev2
            else pullPhase env s localBk localHi direction ev0

/-- `SyncWorker.run` (src/sync/worker.py lines 17-26): the job either
returns a `(ok, msg)` pair, which is emitted as the `finished` signal, or
raises, in which case a failure result is emitted instead — a worker
never terminates without delivering a result. -/
def SyncWorker_run (fnResult : Except String (Bool × String)) : Bool × String :=
  match fnResult with
  | Except.ok r => r
  | Except.error e => (false, "Sync worker error: " ++ e)

/-- The fixed message heads of every result `perform_sync` can build; a
head followed by the caught exception's text forms the full message. -/
def syncMessageHeads : List String :=
  ["No sync passphrase provided.", "Sync backend unavailable: ",
   "Failed to open SyncStore: ", "Unexpected sync error: ",
   "Sync test failed: ", "Sync test failed: read-back mismatch.",
   "Sync test OK (local encrypted store).", "Failed to push data: ",
   "Failed to pull data: ", "Failed to write merged bookmarks: ",
   "Failed to write merged history: ", "Sync completed."]

/-- Whether an event is a direct truncating file write. -/
def isPlainWrite : FsEvent → Bool
  | FsEvent.plainWrite _ _ => true
  | _ => false

/-- Whether an event touches the encrypted store. -/
def isStoreEvent : FsEvent → Bool
  | FsEvent.storeOpen _ => true
  | FsEvent.storeSet _ _ => true
  | FsEvent.storeGet _ => true
  | _ => false

/-- Whether an event reads or writes a key of the encrypted store
(opening the store is not counted). -/
def isStoreRW : FsEvent → Bool
  | FsEvent.storeSet _ _ => true
  | FsEvent.storeGet _ => true
  | _ => false

/-! ### Dedup lemmas -/

theorem mem_dedupKeepFirst {x : String} : ∀ {m : List String},
    x ∈ dedupKeepFirst m → x ∈ m := by
  intro m
  induction m with
  | nil => intro h; exact absurd h (List.not_mem_nil x)
  | cons y ys ih =>
      intro h
      rw [dedupKeepFirst] at h
      rcases List.mem_cons.mp h with h1 | h2
      · subst h1; exact List.mem_cons_self _ _
      · exact List.mem_cons_of_mem _ (ih (List.mem_filter.mp h2).1)

theorem filter_dedupKeepFirst (p : String → Bool) : ∀ m : List String,
    (dedupKeepFirst m).filter p = dedupKeepFirst (m.filter p) := by
  intro m
  induction m with
  | nil => rfl
  | cons y ys ih =>
      rw [dedupKeepFirst, List.filter_cons]
      by_cases hp : p y = true
      · simp only [hp, if_pos]
        rw [List.filter_cons_of_pos hp, List.filter_filter, dedupKeepFirst, ← ih,
          List.filter_filter]
        congr 2
        funext z
        exact Bool.and_comm _ _
      · have hp' : p y = false := Bool.eq_false_iff.mpr hp
        simp only [hp', Bool.false_eq_true, if_false]
        rw [List.filter_cons_of_neg (by simp [hp'])]
        have hcomm : ((dedupKeepFirst ys).filter (fun z => z ≠ y)).filter p =
            ((dedupKeepFirst ys).filter p).filter (fun z => z ≠ y) := by
          rw [List.filter_filter, List.filter_filter]
          congr 1
          funext z
          exact Bool.and_comm _ _
        rw [hcomm, ih]
        apply List.filter_eq_self.mpr
        intro z hz
        have hzp : p z = true :=
          (List.mem_filter.mp (mem_dedupKeepFirst hz)).2
        have : z ≠ y := fun hzy => by rw [hzy] at hzp; rw [hzp] at hp'; cases hp'
        simp [this]

theorem dedupKeepFirst_append_singleton (a : String) : ∀ m : List String,
    dedupKeepFirst (m ++ [a]) =
      if a ∈ m then dedupKeepFirst m else dedupKeepFirst m ++ [a] := by
  intro m
  induction m with
  | nil => simp [dedupKeepFirst]
  | cons x m' ih =>
      rw [List.cons_append, dedupKeepFirst, ih, dedupKeepFirst]
      by_cases ham : a ∈ m'
      · rw [if_pos ham, if_pos (List.mem_cons_of_mem _ ham)]
      · rw [if_neg ham, List.filter_append]
        by_cases hax : a = x
        · subst hax
          rw [if_pos (List.mem_cons_self _ _)]
          simp
        · rw [if_neg (by simp [List.mem_cons, hax, ham])]
          simp [hax]

theorem dedupFirstAux_eq_keepFirst (l : List String) : ∀ seen : List String,
    dedupFirstAux seen l = dedupKeepFirst (l.filter (fun x => x ∉ seen)) := by
  induction l with
  | nil => intro seen; rfl
  | cons x xs ih =>
      intro seen
      by_cases hx : x ∈ seen
      · rw [dedupFirstAux, if_pos hx, List.filter_cons_of_neg (by simp [hx]), ih]
      · rw [dedupFirstAux, if_neg hx, List.filter_cons_of_pos (by simp [hx]),
          dedupKeepFirst, ih (x :: seen), filter_dedupKeepFirst,
          List.filter_filter]
        congr 2
        apply List.filter_congr
        intro y _
        by_cases hyx : y = x
        · subst hyx; simp
        · simp [hyx, List.mem_cons]

theorem dedupKeepFirst_reverse (l : List String) :
    dedupKeepFirst l.reverse = l.dedup.reverse := by
  induction l with
  | nil => rfl
  | cons x xs ih =>
      rw [List.reverse_cons, dedupKeepFirst_append_singleton, ih]
      by_cases hx : x ∈ xs
      · rw [if_pos (by simpa using hx), List.dedup_cons_of_mem hx]
      · rw [if_neg (by simpa using hx), List.dedup_cons_of_not_mem hx,
          List.reverse_cons]

theorem dedupFirstAux_not_mem_seen (l : List String) : ∀ seen x,
    x ∈ dedupFirstAux seen l → x ∉ seen := by
  induction l with
  | nil => intro seen x h; simp [dedupFirstAux] at h
  | cons y ys ih =>
      intro seen x h
      rw [dedupFirstAux] at h
      by_cases hy : y ∈ seen
      · rw [if_pos hy] at h; exact ih seen x h
      · rw [if_neg hy] at h
        rcases List.mem_cons.mp h with h1 | h2
        · subst h1; exact hy
        · have := ih (y :: seen) x h2
          exact fun hx => this (List.mem_cons_of_mem _ hx)

theorem dedupFirstAux_nodup (l : List String) : ∀ seen,
    (dedupFirstAux seen l).Nodup := by
  induction l with
  | nil => intro seen; simp [dedupFirstAux]
  | cons y ys ih =>
      intro seen
      rw [dedupFirstAux]
      by_cases hy : y ∈ seen
      · rw [if_pos hy]; exact ih seen
      · rw [if_neg hy]
        refine List.nodup_cons.mpr ⟨?_, ih (y :: seen)⟩
        intro hmem
        exact dedupFirstAux_not_mem_seen ys (y :: seen) y hmem (List.mem_cons_self _ _)

theorem merge_history_eq_spec (l r : List String) :
    merge_history l r = merge_history_spec l r := by
  unfold merge_history merge_history_spec
  rw [dedupFirstAux_eq_keepFirst]
  have hfilter : ∀ m : List String, m.filter (fun x => x ∉ ([] : List String)) = m := by
    intro m; simp
  rw [hfilter, dedupKeepFirst_reverse, List.reverse_reverse]

theorem merge_bookmarks_eq_spec (l r : List String) :
    merge_bookmarks l r = merge_bookmarks_spec l r := by
  unfold merge_bookmarks merge_bookmarks_spec
  rw [dedupFirstAux_eq_keepFirst]
  simp

/-! ## Claims -/

/-- C2: for all lists of URL strings `local` and `remote`, the history
merge computed during pull equals the reference definition — in forward
order the last occurrence in the concatenation wins, restored to
chronological order and truncated to the most recent 1000 entries — and
merging local `["x","y"]` with remote `["y","z"]` yields
`["x","y","z"]`. -/
theorem C2_merge_history_matches_reference :
    (∀ l r : List String, merge_history l r = merge_history_spec l r) ∧
    merge_history ["x", "y"] ["y", "z"] = ["x", "y", "z"] :=
  ⟨merge_history_eq_spec, by decide⟩

/-- C3: for all lists of URL strings `local` and `remote`, the bookmark
merge computed during pull is the concatenation of local then remote
with duplicates removed keeping the first occurrence; merging
`["a","b"]` with `["b","c"]` yields `["a","b","c"]`, and the result
never contains a duplicate URL. -/
theorem C3_merge_bookmarks_stable_union :
    (∀ l r : List String, merge_bookmarks l r = merge_bookmarks_spec l r) ∧
    merge_bookmarks ["a", "b"] ["b", "c"] = ["a", "b", "c"] ∧
    ∀ l r : List String, (merge_bookmarks l r).Nodup :=
  ⟨merge_bookmarks_eq_spec, by decide, fun l r => dedupFirstAux_nodup _ []⟩

/-- C8 fails as stated: the history merge deduplicates, so a remote list
with a repeated URL is not returned unchanged even though it has at most
1000 entries.  Here `merge_history [] ["a","a"] = ["a"]`. -/
theorem C8_counterexample :
    (["a", "a"] : List String).length ≤ 1000 ∧
    merge_history [] ["a", "a"] ≠ ["a", "a"] := by
  decide

/-- C8 (amended): for every duplicate-free remote history list `X`, the
history merge with an empty local list returns `X` itself when `X` has
at most 1000 entries, and the last 1000 entries of `X` otherwise. -/
theorem C8_empty_local_merge (X : List String) (h : X.Nodup) :
    merge_history [] X = if X.length ≤ 1000 then X else lastN 1000 X := by
  rw [merge_history_eq_spec]
  unfold merge_history_spec
  rw [List.nil_append, List.Nodup.dedup h]
  by_cases hlen : X.length ≤ 1000
  · rw [if_pos hlen]
    unfold lastN
    rw [Nat.sub_eq_zero_of_le hlen, List.drop_zero]
  · rw [if_neg hlen]

/-- Witness for C8 (amended) at the duplicate-free list `["a","b"]`. -/
theorem C8_empty_local_merge_witness :
    merge_history [] ["a", "b"] =
      if (["a", "b"] : List String).length ≤ 1000 then ["a", "b"]
      else lastN 1000 ["a", "b"] :=
  C8_empty_local_merge ["a", "b"] (by decide)

/-- Reading back the key just written returns exactly the written
document: the store model is an honest key-value map. -/
theorem storeFetch_storePut_same (st : Store) (k : String) (d : Doc) :
    storeFetch (storePut st k d) k = some d := by
  simp [storeFetch, storePut]

set_option maxHeartbeats 1000000 in
theorem pullPhase_message_heads (env : Env) (s : AppState)
    (localBk localHi : List String) (direction : String) (ev : List FsEvent) :
    ∃ head rest, head ∈ syncMessageHeads ∧
      (pullPhase env s localBk localHi direction ev).1.2 = head ++ rest := by
  unfold pullPhase finalizeSync save_sync_settings
  repeat' split
  all_goals first
    | exact ⟨_, _, by simp [syncMessageHeads], rfl⟩
    | exact ⟨_, "", by simp [syncMessageHeads], (String.append_empty _).symm⟩

set_option maxHeartbeats 1000000 in
/-- C1: for every direction, passphrase and local state, `perform_sync`
returns a `(success, message)` pair — the embedding is a total function
into that type, mirroring how every `except` clause of the source
converts a fault into a returned failure — whose message always starts
with one of the fixed descriptive heads, followed by the caught
exception's text; and the worker boundary `SyncWorker.run` emits a
result both when the job returns and when it raises. -/
theorem C1_structured_result (env : Env) (s : AppState)
    (passphrase : Option String) (direction : String) (e : String) :
    (∃ head rest, head ∈ syncMessageHeads ∧
      (perform_sync env s passphrase direction).1.2 = head ++ rest) ∧
    SyncWorker_run (Except.ok (perform_sync env s passphrase direction).1)
      = (perform_sync env s passphrase direction).1 ∧
    SyncWorker_run (Except.error e) = (false, "Sync worker error: " ++ e) := by
  refine ⟨?_, rfl, rfl⟩
  unfold perform_sync save_sync_settings
  simp only [storeFetch_storePut_same]
  repeat' split
  all_goals first
    | exact pullPhase_message_heads _ _ _ _ _ _
    | exact ⟨_, _, by simp [syncMessageHeads], rfl⟩
    | exact ⟨_, "", by simp [syncMessageHeads], (String.append_empty _).symm⟩

set_option maxHeartbeats 1000000 in
theorem pullPhase_failure_lastSync (env : Env) (s : AppState)
    (localBk localHi : List String) (direction : String) (ev : List FsEvent)
    (h : (pullPhase env s localBk localHi direction ev).1.1 = false) :
    (pullPhase env s localBk localHi direction ev).2.1.lastSync = s.lastSync := by
  revert h
  unfold pullPhase finalizeSync save_sync_settings
  repeat' split
  all_goals intro h
  all_goals simp_all

set_option maxHeartbeats 1000000 in
/-- C6: whenever `perform_sync` returns a failure result, the stored
`last_sync` value equals the value it had when the call began: every
failure return happens before the `self.last_sync = now_ts`
assignments, and `save_sync_settings` never raises. -/
theorem C6_failure_preserves_last_sync (env : Env) (s : AppState)
    (passphrase : Option String) (direction : String)
    (h : (perform_sync env s passphrase direction).1.1 = false) :
    (perform_sync env s passphrase direction).2.1.lastSync = s.lastSync := by
  revert h
  unfold perform_sync save_sync_settings
  simp only [storeFetch_storePut_same]
  repeat' split
  all_goals intro h
  all_goals first
    | exact (pullPhase_failure_lastSync _ _ _ _ _ _ h).trans rfl
    | simp_all

theorem resolvePass_of_truthy (env : Env) (s : AppState)
    (passphrase : Option String) (hp : truthy passphrase = true) :
    resolvePass env s passphrase = passphrase := by
  unfold resolvePass
  simp [hp]

/-- C4: if no passphrase is resolvable — the explicit argument is absent
or empty, the credential-backend value is absent or empty, and the UI
field is absent or empty — then for every direction `perform_sync`
returns exactly `(false, "No sync passphrase provided.")`, leaves the
state untouched, and emits no event at all: in particular no open of,
read from, or write to the encrypted store. -/
theorem C4_missing_passphrase (env : Env) (s : AppState)
    (passphrase : Option String) (direction : String)
    (hp : truthy passphrase = false) (hstored : truthy s.storedPass = false)
    (hui : truthy s.uiPass = false) :
    perform_sync env s passphrase direction =
      ((false, "No sync passphrase provided."), s, []) := by
  have hp1 : truthy (if env.hasKeyring then s.storedPass else none) = false := by
    cases env.hasKeyring
    · rfl
    · simpa using hstored
  have hres : truthy (resolvePass env s passphrase) = false := by
    unfold resolvePass
    simp only [hp, Bool.false_eq_true, if_false]
    cases hu : s.uiPass with
    | none => simp [hp1]
    | some t =>
        rw [hu] at hui
        simp [hp1, hui]
  unfold perform_sync
  rw [hres]
  rfl

/-- Witness for C4: empty explicit argument, empty stored secret, empty
UI field. -/
theorem C4_missing_passphrase_witness :
    perform_sync (Env.clean true "2024-01-01T00:00:00Z")
        ⟨["a"], ["h"], ["h"], true, some "t0", none, some "", some "", []⟩
        (some "") "pull" =
      ((false, "No sync passphrase provided."),
        ⟨["a"], ["h"], ["h"], true, some "t0", none, some "", some "", []⟩, []) :=
  C4_missing_passphrase _ _ _ _ (by decide) (by decide) (by decide)

/-- C5: `perform_sync` with direction `"test"` and a resolvable
passphrase, absent store faults, writes the sentinel document
`{"ts": now}` under `"franny_sync_test"`, reads back exactly the
document written (the store is an honest map, and the source accepts the
read-back only when it carries a truthy `ts`), returns success, and sets
`last_sync` to `now` — the in-call timestamp, no earlier than the call's
start time. -/
theorem C5_test_direction (env : Env) (s : AppState)
    (passphrase : Option String) (start : String)
    (hp : truthy passphrase = true)
    (himp : env.importFault = none) (hopen : env.openFault = none)
    (hload : env.loadLocalFault = none)
    (hset : env.setTestFault = none) (hget : env.getTestFault = none)
    (hnow : env.now ≠ "") (hstart : start ≤ env.now) :
    (perform_sync env s passphrase "test").1 =
      (true, "Sync test OK (local encrypted store).") ∧
    FsEvent.storeSet "franny_sync_test" ⟨env.now, none⟩ ∈
      (perform_sync env s passphrase "test").2.2 ∧
    storeFetch (perform_sync env s passphrase "test").2.1.store
      "franny_sync_test" = some ⟨env.now, none⟩ ∧
    (perform_sync env s passphrase "test").2.1.lastSync = some env.now ∧
    start ≤ env.now := by
  have hres : truthy (resolvePass env s passphrase) = true := by
    rw [resolvePass_of_truthy env s passphrase hp]
    exact hp
  unfold perform_sync save_sync_settings
  cases hsv : env.saveSettingsFault <;>
    simp [hres, himp, hopen, hload, hset, hget, hnow, hsv,
      storeFetch_storePut_same, hstart]

/-- Witness for C5 at a concrete state and clean environment. -/
theorem C5_test_direction_witness :
    (perform_sync (Env.clean false "2024-01-02T00:00:00Z")
        ⟨[], [], [], true, none, none, none, none, []⟩
        (some "p") "test").2.1.lastSync = some "2024-01-02T00:00:00Z" :=
  (C5_test_direction (Env.clean false "2024-01-02T00:00:00Z")
    ⟨[], [], [], true, none, none, none, none, []⟩ (some "p")
    "2024-01-02T00:00:00Z" (by decide) rfl rfl rfl rfl rfl (by decide)
    (le_refl _)).2.2.2.1

/-- Witness for C6: with no resolvable passphrase the call fails and
`last_sync` is untouched. -/
theorem C6_failure_preserves_last_sync_witness :
    (perform_sync (Env.clean false "2024-01-01T00:00:00Z")
        ⟨[], [], [], false, some "t0", none, none, none, []⟩
        none "test").2.1.lastSync = some "t0" :=
  C6_failure_preserves_last_sync _ _ _ _ (by decide)

/-- C9: for a direction outside `{"test", "push", "pull", "sync"}`, with
a resolvable passphrase and a store that opens, `perform_sync` performs
no store reads or writes yet returns `(true, "Sync completed.")` and
sets `last_sync` to the current timestamp: the unrecognized direction
falls through every block to the success epilogue. -/
theorem C9_unknown_direction (env : Env) (s : AppState)
    (passphrase : Option String) (direction : String)
    (hp : truthy passphrase = true)
    (himp : env.importFault = none) (hopen : env.openFault = none)
    (hload : env.loadLocalFault = none)
    (hd1 : direction ≠ "test") (hd2 : direction ≠ "push")
    (hd3 : direction ≠ "pull") (hd4 : direction ≠ "sync") :
    (perform_sync env s passphrase direction).1 = (true, "Sync completed.") ∧
    (perform_sync env s passphrase direction).2.1.lastSync = some env.now ∧
    ∀ ev ∈ (perform_sync env s passphrase direction).2.2,
      isStoreRW ev = false := by
  have hres : truthy (resolvePass env s passphrase) = true := by
    rw [resolvePass_of_truthy env s passphrase hp]
    exact hp
  unfold perform_sync pullPhase finalizeSync save_sync_settings
  cases hsv : env.saveSettingsFault <;>
    simp [hres, himp, hopen, hload, hd1, hd2, hd3, hd4, hsv, isStoreRW]

/-- Witness for C9 at the concrete direction `"frobnicate"`. -/
theorem C9_unknown_direction_witness :
    (perform_sync (Env.clean false "2024-01-03T00:00:00Z")
        ⟨["b"], ["h"], ["h"], true, none, none, none, none, []⟩
        (some "p") "frobnicate").1 = (true, "Sync completed.") :=
  (C9_unknown_direction (Env.clean false "2024-01-03T00:00:00Z")
    ⟨["b"], ["h"], ["h"], true, none, none, none, none, []⟩ (some "p")
    "frobnicate" (by decide) rfl rfl rfl (by decide) (by decide) (by decide)
    (by decide)).1

/-- C10: during a pull (direction `"pull"` or `"sync"`), when the merged
bookmarks were persisted but writing the merged history fails,
`perform_sync` returns a failure result while the bookmarks file already
holds the merged bookmarks (and `load_bookmarks`, the only in-memory
view of bookmarks the source keeps, reads this file), whereas the
history file and the in-memory history still hold their pre-call values
and `last_sync` is unchanged: the two collections are left
inconsistently updated. -/
theorem C10_partial_pull (env : Env) (s : AppState)
    (passphrase : Option String) (direction : String) (e : String)
    (hp : truthy passphrase = true)
    (himp : env.importFault = none) (hopen : env.openFault = none)
    (hload : env.loadLocalFault = none)
    (hd : direction = "pull" ∨ direction = "sync")
    (hsbk : env.setBkFault = none) (hshi : env.setHiFault = none)
    (hgbk : env.getBkFault = none) (hghi : env.getHiFault = none)
    (habk : env.atomicBkFault = none) (hsvbk : env.saveBkFault = none)
    (hwhi : env.writeHiFault = some e) :
    (perform_sync env s passphrase direction).1 =
      (false, "Failed to write merged history: " ++ e) ∧
    (∃ rb, (perform_sync env s passphrase direction).2.1.bookmarksFile =
      merge_bookmarks s.bookmarksFile rb) ∧
    (perform_sync env s passphrase direction).2.1.history = s.history ∧
    (perform_sync env s passphrase direction).2.1.historyFile = s.historyFile ∧
    (perform_sync env s passphrase direction).2.1.lastSync = s.lastSync := by
  have hres : truthy (resolvePass env s passphrase) = true := by
    rw [resolvePass_of_truthy env s passphrase hp]
    exact hp
  rcases hd with hd | hd <;> subst hd <;>
    unfold perform_sync pullPhase <;>
    simp [hres, himp, hopen, hload, hsbk, hshi, hgbk, hghi, habk, hsvbk, hwhi]

/-- Witness for C10: a concrete pull whose history write faults after
the bookmark writes succeeded. -/
theorem C10_partial_pull_witness :
    (perform_sync
        ⟨false, "2024-01-04T00:00:00Z", none, none, none, none, none, none,
          none, none, none, none, none, some "disk full", false⟩
        ⟨["a"], ["h1"], ["h1"], true, some "t0", none, none, none,
          [("bookmarks", ⟨"t1", some ["b"]⟩)]⟩
        (some "p") "pull").1 =
      (false, "Failed to write merged history: " ++ "disk full") :=
  (C10_partial_pull
    ⟨false, "2024-01-04T00:00:00Z", none, none, none, none, none, none,
      none, none, none, none, none, some "disk full", false⟩
    ⟨["a"], ["h1"], ["h1"], true, some "t0", none, none, none,
      [("bookmarks", ⟨"t1", some ["b"]⟩)]⟩
    (some "p") "pull" "disk full" (by decide) rfl rfl rfl (Or.inl rfl)
    rfl rfl rfl rfl rfl rfl rfl).1

/-- C7 fails as stated: in a faultless pull the merged bookmarks are
written atomically but then immediately rewritten by `save_bookmarks`
with a plain truncating `open(path, "w")` write (line 953), so this
persistence of a merged local document is not all-or-nothing. -/
theorem C7_counterexample :
    ¬ (∀ ev ∈ (perform_sync (Env.clean false "2024-01-05T00:00:00Z")
          ⟨["a"], [], [], false, none, none, none, none, []⟩
          (some "p") "pull").2.2,
        isPlainWrite ev = false) := by
  decide

set_option maxRecDepth 8000 in
set_option maxHeartbeats 1000000 in
/-- C7 (amended): merged-history and sync-config persistences go through
the temp-file + flush + rename path, and the merged bookmarks are first
written atomically; but `save_bookmarks` then rewrites the bookmarks
file with a plain truncating write, which is the only non-atomic
local-file write `perform_sync` can emit — so only the bookmarks-file
persistence is not all-or-nothing. -/
theorem C7_plain_write_only_bookmarks (env : Env) (s : AppState)
    (passphrase : Option String) (direction : String)
    (path : String) (fd : FileData)
    (h : FsEvent.plainWrite path fd ∈
      (perform_sync env s passphrase direction).2.2) :
    path = BOOKMARKS_PATH ∧ ∃ l, fd = FileData.urls l := by
  revert h
  unfold perform_sync pullPhase finalizeSync save_sync_settings
    atomic_write_json save_bookmarks_event
  simp only [storeFetch_storePut_same]
  repeat' split
  all_goals intro h
  all_goals simp_all

/-- Witness for C7 (amended) at the concrete faultless pull. -/
theorem C7_plain_write_only_bookmarks_witness :
    "bookmarks.json" = BOOKMARKS_PATH ∧
    ∃ l, FileData.urls ["a"] = FileData.urls l :=
  C7_plain_write_only_bookmarks (Env.clean false "2024-01-05T00:00:00Z")
    ⟨["a"], [], [], false, none, none, none, none, []⟩
    (some "p") "pull" "bookmarks.json" (FileData.urls ["a"]) (by decide)

end Franny
